import Mathlib

/-!
Verification of the Startle-Response-Analysis pipeline
(`src/analyze_max_g.py`) against its specification.

The whole program is a single linear pipeline (`analyze_max_g_values`):

* read the CSV, skipping the first metadata line (line 20);
* keep rows whose first column equals the sentinel `-900` (line 24);
* coerce `ValueG` to numeric and drop rows where the coercion fails
  (lines 27-28);
* add an `AbsValueG` column (line 31);
* group by `(Trial, TrialNo)` and take the maximum of `ValueG` and of
  `AbsValueG` per group (lines 35-38);
* take the mean of each family of per-group maxima (lines 41-42);
* return the two mappings and the two means (line 68).

`FileNotFoundError` is caught at line 70 and the generic `except` at
line 73 catches every other failure (missing columns, empty file, ...);
both branches return a `None` tuple, so the caller (`main`, line 89)
writes no report in those cases.

Embedding choices:

* a parsed data row carries the values the code actually reads from it:
  the first (tag) column as an integer, `Trial` as a string, `TrialNo`
  as an integer, and the result of `pd.to_numeric(·, errors="coerce")`
  on `ValueG` as an `Option ℚ` (`none` models the NaN produced by a
  failed coercion, which line 28 drops);
* machine floats are modelled by exact rationals; `PandasFloat` adds the
  NaN value that `Series.mean()` returns on an empty series;
* a pandas group-by result is modelled as the list of distinct group
  keys paired with the per-group aggregate (pandas sorts the keys; the
  model uses `List.dedup` order, and no claim depends on key order);
* the two `except` branches become an `Except` value: `.notFound` for
  the `FileNotFoundError` branch and `.parseFailure` for the generic
  branch.  These are the only two error exits of the source.
-/

namespace StartleResponse

/-- A group key: the `(Trial, TrialNo)` pair used by `df.groupby` (lines
35 and 38 of `analyze_max_g.py`). -/
abbrev GroupKey := String × Int

/-- One data row of the CSV as the code reads it: the first (tag)
column, the `Trial` and `TrialNo` columns, and `ValueG` after
`pd.to_numeric(·, errors="coerce")` — `none` models the NaN a failed
coercion produces. -/
structure RawRow where
  tag : Int
  trial : String
  trialNo : Int
  valueG : Option ℚ
deriving DecidableEq, Repr

/-- A readable CSV file after the `skiprows=1` read of line 20: the
column-header names and the parsed data rows. -/
structure CSVFile where
  header : List String
  rows : List RawRow
deriving DecidableEq, Repr

/-- A row that survived both filters (lines 24 and 28): its `ValueG`
coerced successfully, so it is a plain rational here. -/
structure ValidRow where
  trial : String
  trialNo : Int
  valueG : ℚ
deriving DecidableEq, Repr

/-- Line 24: `df = df[df.iloc[:, 0] == -900]` — keep rows whose first
column is the sentinel. -/
def filterTag (rows : List RawRow) : List RawRow :=
  rows.filter (fun r => r.tag = -900)

/-- Lines 27-28: coerce `ValueG` and drop the rows where the coercion
produced NaN. -/
def filterNumeric (rows : List RawRow) : List ValidRow :=
  rows.filterMap (fun r => r.valueG.map (fun q => ⟨r.trial, r.trialNo, q⟩))

/-- The two filtering steps composed, as they run in lines 24-28. -/
def filterValid (rows : List RawRow) : List ValidRow :=
  filterNumeric (filterTag rows)

/-- The group-by key of a row: its `(Trial, TrialNo)` pair. -/
def rowKey (r : ValidRow) : GroupKey := (r.trial, r.trialNo)

/-- The distinct group keys produced by `df.groupby(["Trial",
"TrialNo"])`. -/
def groupKeys (rows : List ValidRow) : List GroupKey :=
  (rows.map rowKey).dedup

/-- The rows of one group: the members of the `(Trial, TrialNo)`
partition for key `k`. -/
def groupRows (rows : List ValidRow) (k : GroupKey) : List ValidRow :=
  rows.filter (fun r => rowKey r = k)

/-- The `ValueG` series of one group. -/
def groupValues (rows : List ValidRow) (k : GroupKey) : List ℚ :=
  (groupRows rows k).map (·.valueG)

/-- The `AbsValueG` series of one group (line 31 takes `.abs()` of the
`ValueG` column; grouping then restricts it to the group's rows). -/
def groupAbsValues (rows : List ValidRow) (k : GroupKey) : List ℚ :=
  (groupRows rows k).map (fun r => |r.valueG|)

/-- Pandas `Series.max()` over a group.  Every group a `groupby`
produces is non-empty, so the `[]` branch is never reached from the
pipeline; `0` is an arbitrary value for totality. -/
def seriesMax : List ℚ → ℚ
  | [] => 0
  | q :: qs => qs.foldl max q

/-- Line 35: `df.groupby(["Trial", "TrialNo"])["ValueG"].max()`, as the
association list from group key to signed maximum. -/
def maxValues (rows : List ValidRow) : List (GroupKey × ℚ) :=
  (groupKeys rows).map (fun k => (k, seriesMax (groupValues rows k)))

/-- Line 38: `df.groupby(["Trial", "TrialNo"])["AbsValueG"].max()`. -/
def absMaxValues (rows : List ValidRow) : List (GroupKey × ℚ) :=
  (groupKeys rows).map (fun k => (k, seriesMax (groupAbsValues rows k)))

/-- A pandas float value as it matters here: either NaN or a finite
value (modelled exactly, as a rational). -/
inductive PandasFloat
  | nan
  | val (q : ℚ)
deriving DecidableEq, Repr

/-- Pandas `Series.mean()`: NaN on an empty series, the arithmetic mean
otherwise (lines 41-42). -/
def seriesMean (l : List ℚ) : PandasFloat :=
  if l = [] then .nan else .val (l.sum / (l.length : ℚ))

/-- The tuple returned at line 68: the two key-to-maximum mappings and
the two means. -/
structure AnalysisResult where
  maxValuesDict : List (GroupKey × ℚ)
  meanOfMaxes : PandasFloat
  absMaxValuesDict : List (GroupKey × ℚ)
  meanOfAbsMaxes : PandasFloat
deriving DecidableEq, Repr

/-- The two `except` branches of `analyze_max_g_values`: line 70 catches
`FileNotFoundError`, line 73 catches every other exception of the `try`
body (missing columns, unreadable structure, ...).  The source has no
other error exit — in particular no error for "no valid data rows". -/
inductive AnalysisError
  | notFound
  | parseFailure
deriving DecidableEq, Repr

/-- Decidable equality for `Except`, so that concrete runs of the
pipeline can be settled by `decide`. -/
instance exceptDecEq {α β : Type} [DecidableEq α] [DecidableEq β] :
    DecidableEq (Except α β) := fun a b =>
  match a, b with
  | .error e, .error f =>
    if h : e = f then .isTrue (by rw [h])
    else .isFalse (by intro hh; cases hh; exact h rfl)
  | .error _, .ok _ => .isFalse (by intro hh; cases hh)
  | .ok _, .error _ => .isFalse (by intro hh; cases hh)
  | .ok x, .ok y =>
    if h : x = y then .isTrue (by rw [h])
    else .isFalse (by intro hh; cases hh; exact h rfl)

/-- The input to one run: either the path does not resolve to a readable
file (so `pd.read_csv` raises `FileNotFoundError`) or it yields a parsed
`CSVFile`. -/
inductive FileInput
  | missing
  | found (f : CSVFile)
deriving DecidableEq, Repr

/-- Whether the `try` body gets past its column accesses: `df.iloc[:, 0]`
(line 24) needs at least one column, `df["ValueG"]` (line 27) needs a
`ValueG` column, and the two `groupby` calls (lines 35, 38) need `Trial`
and `TrialNo`.  A missing one raises, and the generic `except` of line
73 catches it. -/
def hasRequiredColumns (f : CSVFile) : Bool :=
  !f.header.isEmpty && f.header.contains "ValueG" &&
    f.header.contains "Trial" && f.header.contains "TrialNo"

/-- The whole of `analyze_max_g_values` (lines 6-75): filter, group,
reduce, average, with the two `except` branches as `Except.error`. -/
def analyze_max_g_values (input : FileInput) : Except AnalysisError AnalysisResult :=
  match input with
  | .missing => .error .notFound
  | .found f =>
    if hasRequiredColumns f then
      let valid := filterValid f.rows
      .ok ⟨maxValues valid,
           seriesMean ((maxValues valid).map Prod.snd),
           absMaxValues valid,
           seriesMean ((absMaxValues valid).map Prod.snd)⟩
    else
      .error .parseFailure

/-- The part of `main` (lines 87-114) the spec constrains: the report is
written iff the analysis returned data (`max_values_dict is not None`,
line 89); its content is determined by the returned tuple. -/
def mainReport (input : FileInput) : Option AnalysisResult :=
  match analyze_max_g_values input with
  | .error _ => none
  | .ok r => some r

/-- The spec's membership condition (property P1), stated as a per-row
predicate: a row contributes iff its tag column equals the sentinel
`-900` and its `ValueG` column parsed as a number.  Used to compare the
source's two-step filter against the spec's characterisation. -/
def contributesSpec (r : RawRow) : Bool :=
  r.tag == -900 && r.valueG.isSome

/-- The valid sample a contributing raw row turns into (the `getD` is
only reached on rows whose `ValueG` parsed, where it returns the parsed
value). -/
def extractValid (r : RawRow) : ValidRow :=
  ⟨r.trial, r.trialNo, r.valueG.getD 0⟩

/-- A well-formed file whose rows contain no valid sample: one row has a
metadata tag (`-130`), the other fails numeric coercion. -/
def fileNoValid : CSVFile :=
  ⟨["Tag", "Trial", "TrialNo", "ValueG"],
   [⟨-130, "A", 1, some 3⟩, ⟨-900, "B", 2, none⟩]⟩

/-- A file with a single group whose samples are `[3, -5, 2]`: the
spec's independent-extrema example (property P3). -/
def fileIndep : CSVFile :=
  ⟨["Tag", "Trial", "TrialNo", "ValueG"],
   [⟨-900, "A", 1, some 3⟩, ⟨-900, "A", 1, some (-5)⟩, ⟨-900, "A", 1, some 2⟩]⟩

/-- A file with three groups whose signed maxima are `[2, 4, 6]`: the
spec's mean example (property P4). -/
def fileMeans : CSVFile :=
  ⟨["Tag", "Trial", "TrialNo", "ValueG"],
   [⟨-900, "A", 1, some 2⟩, ⟨-900, "A", 2, some 4⟩, ⟨-900, "A", 3, some 6⟩]⟩

/-- A permutation of `fileMeans`'s rows, for the order-insensitivity
witness. -/
def fileMeansShuffled : CSVFile :=
  ⟨["Tag", "Trial", "TrialNo", "ValueG"],
   [⟨-900, "A", 3, some 6⟩, ⟨-900, "A", 1, some 2⟩, ⟨-900, "A", 2, some 4⟩]⟩

/-- A file whose header lacks the `ValueG` column. -/
def fileBadHeader : CSVFile :=
  ⟨["Tag", "Trial", "TrialNo"], [⟨-900, "A", 1, some 3⟩]⟩

/-! ### Helper lemmas about the fold that models `Series.max()` -/

theorem foldl_max_init_le (qs : List ℚ) (a : ℚ) : a ≤ qs.foldl max a := by
  induction qs generalizing a with
  | nil => exact le_refl a
  | cons b t ih => exact le_trans (le_max_left a b) (ih (max a b))

theorem le_foldl_max {qs : List ℚ} {q : ℚ} (h : q ∈ qs) :
    ∀ a : ℚ, q ≤ qs.foldl max a := by
  induction qs with
  | nil => cases h
  | cons b t ih =>
    intro a
    rcases List.mem_cons.mp h with h' | h'
    · subst h'; exact le_trans (le_max_right a q) (foldl_max_init_le t (max a q))
    · exact ih h' (max a b)

theorem foldl_max_mem (qs : List ℚ) (a : ℚ) :
    qs.foldl max a = a ∨ qs.foldl max a ∈ qs := by
  induction qs generalizing a with
  | nil => exact Or.inl rfl
  | cons b t ih =>
    rcases ih (max a b) with h | h
    · rcases max_choice a b with hm | hm
      · exact Or.inl (by rw [List.foldl_cons, h, hm])
      · exact Or.inr (by rw [List.foldl_cons, h, hm]; exact List.mem_cons_self b t)
    · exact Or.inr (List.mem_cons_of_mem b h)

theorem seriesMax_mem {l : List ℚ} (h : l ≠ []) : seriesMax l ∈ l := by
  match l with
  | [] => exact absurd rfl h
  | q :: qs =>
    show seriesMax (q :: qs) ∈ q :: qs
    rcases foldl_max_mem qs q with h' | h'
    · rw [show seriesMax (q :: qs) = qs.foldl max q from rfl, h']
      exact List.mem_cons_self q qs
    · exact List.mem_cons_of_mem q h'

theorem le_seriesMax {l : List ℚ} {q : ℚ} (h : q ∈ l) : q ≤ seriesMax l := by
  match l with
  | [] => cases h
  | b :: t =>
    rcases List.mem_cons.mp h with h' | h'
    · subst h'; exact foldl_max_init_le t q
    · exact le_foldl_max h' b

theorem seriesMax_perm {l1 l2 : List ℚ} (h : l1.Perm l2) :
    seriesMax l1 = seriesMax l2 := by
  by_cases h1 : l1 = []
  · subst h1
    rw [h.symm.eq_nil]
  · have h2 : l2 ≠ [] := fun hh => h1 (by subst hh; exact h.eq_nil)
    exact le_antisymm
      (le_seriesMax (h.mem_iff.mp (seriesMax_mem h1)))
      (le_seriesMax (h.mem_iff.mpr (seriesMax_mem h2)))

theorem seriesMean_perm {l1 l2 : List ℚ} (h : l1.Perm l2) :
    seriesMean l1 = seriesMean l2 := by
  unfold seriesMean
  by_cases h1 : l1 = []
  · subst h1
    rw [h.symm.eq_nil]
  · have h2 : l2 ≠ [] := fun hh => h1 (by subst hh; exact h.eq_nil)
    rw [if_neg h1, if_neg h2, h.sum_eq, h.length_eq]

/-! ### Helper lemmas about grouping -/

theorem mem_groupRows_iff {v : List ValidRow} {r : ValidRow} {k : GroupKey} :
    r ∈ groupRows v k ↔ r ∈ v ∧ rowKey r = k := by
  simp [groupRows]

theorem rowKey_mem_groupKeys {v : List ValidRow} {r : ValidRow} (h : r ∈ v) :
    rowKey r ∈ groupKeys v := by
  rw [groupKeys, List.mem_dedup]
  exact List.mem_map_of_mem rowKey h

theorem exists_row_of_mem_groupKeys {v : List ValidRow} {k : GroupKey}
    (h : k ∈ groupKeys v) : ∃ r ∈ v, rowKey r = k := by
  rw [groupKeys, List.mem_dedup] at h
  exact List.mem_map.mp h

theorem groupValues_ne_nil {v : List ValidRow} {k : GroupKey}
    (h : k ∈ groupKeys v) : groupValues v k ≠ [] := by
  obtain ⟨r, hr, hk⟩ := exists_row_of_mem_groupKeys h
  have hmem : r.valueG ∈ groupValues v k := by
    rw [groupValues]
    exact List.mem_map_of_mem _ (mem_groupRows_iff.mpr ⟨hr, hk⟩)
  intro hnil
  rw [hnil] at hmem
  cases hmem

theorem groupAbsValues_ne_nil {v : List ValidRow} {k : GroupKey}
    (h : k ∈ groupKeys v) : groupAbsValues v k ≠ [] := by
  obtain ⟨r, hr, hk⟩ := exists_row_of_mem_groupKeys h
  have hmem : |r.valueG| ∈ groupAbsValues v k := by
    rw [groupAbsValues]
    exact List.mem_map_of_mem _ (mem_groupRows_iff.mpr ⟨hr, hk⟩)
  intro hnil
  rw [hnil] at hmem
  cases hmem

theorem mem_maxValues_iff {v : List ValidRow} {k : GroupKey} {m : ℚ} :
    (k, m) ∈ maxValues v ↔ k ∈ groupKeys v ∧ m = seriesMax (groupValues v k) := by
  rw [maxValues]
  constructor
  · intro h
    obtain ⟨k', hk', heq⟩ := List.mem_map.mp h
    obtain ⟨h1, h2⟩ := Prod.mk.injEq .. |>.mp heq
    subst h1
    exact ⟨hk', h2.symm⟩
  · rintro ⟨hk, rfl⟩
    exact List.mem_map_of_mem _ hk

theorem mem_absMaxValues_iff {v : List ValidRow} {k : GroupKey} {m : ℚ} :
    (k, m) ∈ absMaxValues v ↔ k ∈ groupKeys v ∧ m = seriesMax (groupAbsValues v k) := by
  rw [absMaxValues]
  constructor
  · intro h
    obtain ⟨k', hk', heq⟩ := List.mem_map.mp h
    obtain ⟨h1, h2⟩ := Prod.mk.injEq .. |>.mp heq
    subst h1
    exact ⟨hk', h2.symm⟩
  · rintro ⟨hk, rfl⟩
    exact List.mem_map_of_mem _ hk

/-! ### Permutation lemmas: every pipeline stage is order-insensitive -/

theorem filterValid_perm {r1 r2 : List RawRow} (h : r1.Perm r2) :
    (filterValid r1).Perm (filterValid r2) :=
  (h.filter _).filterMap _

theorem groupRows_perm {v1 v2 : List ValidRow} (h : v1.Perm v2) (k : GroupKey) :
    (groupRows v1 k).Perm (groupRows v2 k) :=
  h.filter _

theorem groupValues_perm {v1 v2 : List ValidRow} (h : v1.Perm v2) (k : GroupKey) :
    (groupValues v1 k).Perm (groupValues v2 k) :=
  (groupRows_perm h k).map _

theorem groupAbsValues_perm {v1 v2 : List ValidRow} (h : v1.Perm v2) (k : GroupKey) :
    (groupAbsValues v1 k).Perm (groupAbsValues v2 k) :=
  (groupRows_perm h k).map _

theorem groupKeys_perm {v1 v2 : List ValidRow} (h : v1.Perm v2) :
    (groupKeys v1).Perm (groupKeys v2) :=
  (h.map rowKey).dedup

theorem maxValues_perm {v1 v2 : List ValidRow} (h : v1.Perm v2) :
    (maxValues v1).Perm (maxValues v2) := by
  rw [maxValues, maxValues,
    show (fun k => (k, seriesMax (groupValues v1 k))) =
        (fun k => (k, seriesMax (groupValues v2 k))) from
      funext fun k => by rw [seriesMax_perm (groupValues_perm h k)]]
  exact (groupKeys_perm h).map _

theorem absMaxValues_perm {v1 v2 : List ValidRow} (h : v1.Perm v2) :
    (absMaxValues v1).Perm (absMaxValues v2) := by
  rw [absMaxValues, absMaxValues,
    show (fun k => (k, seriesMax (groupAbsValues v1 k))) =
        (fun k => (k, seriesMax (groupAbsValues v2 k))) from
      funext fun k => by rw [seriesMax_perm (groupAbsValues_perm h k)]]
  exact (groupKeys_perm h).map _

/-! ### Counting lemmas for the partition property -/

theorem sum_map_ite_count {α : Type} [DecidableEq α] (keys : List α) (a : α) (c : ℕ) :
    (keys.map fun k => if a = k then c else 0).sum = c * keys.count a := by
  induction keys with
  | nil => simp
  | cons k t ih =>
    rw [List.map_cons, List.sum_cons, ih, List.count_cons]
    by_cases h : a = k
    · subst h
      simp
      ring
    · have hb : (a == k) = false := by simp [h]
      simp [h, hb]
      exact Or.inl (Ne.symm h)

theorem flatten_groupRows_perm (v : List ValidRow) :
    ((groupKeys v).map (groupRows v)).flatten.Perm v := by
  rw [List.perm_iff_count]
  intro r
  rw [List.count_flatten, List.map_map]
  have hcongr : (List.count r ∘ groupRows v) =
      fun k => if rowKey r = k then v.count r else 0 := by
    funext k
    by_cases h : rowKey r = k
    · simp only [Function.comp_apply, if_pos h]
      exact List.count_filter (by simp [h])
    · simp only [Function.comp_apply, if_neg h]
      refine List.count_eq_zero.mpr ?_
      intro hmem
      exact h (mem_groupRows_iff.mp hmem).2
  rw [hcongr, sum_map_ite_count (groupKeys v) (rowKey r) (v.count r),
    groupKeys, List.count_dedup]
  by_cases hr : r ∈ v
  · rw [if_pos (List.mem_map_of_mem rowKey hr), Nat.mul_one]
  · rw [List.count_eq_zero.mpr hr]
    simp

/-! ### Inequality lemmas comparing signed and absolute maxima -/

theorem seriesMax_abs_dominates {v : List ValidRow} {k : GroupKey}
    (hk : k ∈ groupKeys v) :
    seriesMax (groupValues v k) ≤ seriesMax (groupAbsValues v k) ∧
      0 ≤ seriesMax (groupAbsValues v k) := by
  have hmem := seriesMax_mem (groupValues_ne_nil hk)
  rw [groupValues] at hmem
  obtain ⟨r, hr, hval⟩ := List.mem_map.mp hmem
  have habs : |r.valueG| ∈ groupAbsValues v k := by
    rw [groupAbsValues]
    exact List.mem_map_of_mem _ hr
  constructor
  · calc seriesMax (groupValues v k) = r.valueG := hval.symm
      _ ≤ |r.valueG| := le_abs_self _
      _ ≤ seriesMax (groupAbsValues v k) := le_seriesMax habs
  · exact le_trans (abs_nonneg r.valueG) (le_seriesMax habs)

theorem sum_snd_maxValues_le (v : List ValidRow) :
    ((maxValues v).map Prod.snd).sum ≤ ((absMaxValues v).map Prod.snd).sum := by
  rw [maxValues, absMaxValues, List.map_map, List.map_map]
  apply List.sum_le_sum
  intro k hk
  exact (seriesMax_abs_dominates hk).1

theorem sum_snd_absMaxValues_nonneg (v : List ValidRow) :
    0 ≤ ((absMaxValues v).map Prod.snd).sum := by
  rw [absMaxValues, List.map_map]
  apply List.sum_nonneg
  intro x hx
  obtain ⟨k, hk, hval⟩ := List.mem_map.mp hx
  rw [← hval]
  exact (seriesMax_abs_dominates hk).2

/-! ### Inverting a successful run -/

theorem seriesMean_val {l : List ℚ} (h : l ≠ []) :
    seriesMean l = .val (l.sum / (l.length : ℚ)) := by
  rw [seriesMean, if_neg h]

theorem analyze_ok_elim {f : CSVFile} {r : AnalysisResult}
    (h : analyze_max_g_values (.found f) = .ok r) :
    hasRequiredColumns f = true ∧
      r = ⟨maxValues (filterValid f.rows),
           seriesMean ((maxValues (filterValid f.rows)).map Prod.snd),
           absMaxValues (filterValid f.rows),
           seriesMean ((absMaxValues (filterValid f.rows)).map Prod.snd)⟩ := by
  rw [analyze_max_g_values] at h
  by_cases hc : hasRequiredColumns f = true
  · rw [if_pos hc] at h
    exact ⟨hc, (Except.ok.injEq .. |>.mp h).symm⟩
  · rw [if_neg hc] at h
    cases h

theorem filterValid_cons (r : RawRow) (t : List RawRow) :
    filterValid (r :: t) =
      (if contributesSpec r then [extractValid r] else []) ++ filterValid t := by
  rw [filterValid, filterValid, filterTag, filterTag]
  by_cases htag : r.tag = -900
  · rw [List.filter_cons_of_pos (by simp [htag])]
    cases hv : r.valueG with
    | none => simp [contributesSpec, htag, hv, filterNumeric]
    | some q => simp [contributesSpec, htag, hv, filterNumeric, extractValid]
  · rw [List.filter_cons_of_neg (by simp [htag])]
    simp [contributesSpec, htag]

/-! ### The claims -/

/-- C5: a path that does not resolve to a readable file makes the run
fail with the not-found error, and `main` produces no report at all. -/
theorem missing_file_no_output :
    analyze_max_g_values .missing = .error .notFound ∧
      mainReport .missing = none :=
  ⟨rfl, rfl⟩

/-- C6: a readable file that lacks one of the required columns (the tag
column, `ValueG`, `Trial` or `TrialNo`) makes the run fail with the
parse-failure error of the generic `except` branch, and every error kind
is recovered: an errored run makes `main` write no report instead of
propagating a fault. -/
theorem missing_columns_parse_error :
    (∀ f : CSVFile,
       f.header = [] ∨ "ValueG" ∉ f.header ∨ "Trial" ∉ f.header ∨
         "TrialNo" ∉ f.header →
       analyze_max_g_values (.found f) = .error .parseFailure)
    ∧ (∀ (input : FileInput) (e : AnalysisError),
       analyze_max_g_values input = .error e → mainReport input = none) := by
  constructor
  · intro f h
    have hc : hasRequiredColumns f = false := by
      rw [hasRequiredColumns]
      rcases h with h | h | h | h <;> simp [h]
    rw [analyze_max_g_values, if_neg (by rw [hc]; exact Bool.false_ne_true)]
  · intro input e h
    rw [mainReport, h]

/-- C6 witness: a concrete file missing the `ValueG` column fails with
the parse-failure error and yields no report. -/
theorem missing_columns_parse_error_witness :
    analyze_max_g_values (.found fileBadHeader) = .error .parseFailure ∧
      mainReport (.found fileBadHeader) = none := by
  have h1 := missing_columns_parse_error.1 fileBadHeader
    (Or.inr (Or.inl (by decide)))
  exact ⟨h1, missing_columns_parse_error.2 (.found fileBadHeader) .parseFailure h1⟩

/-- C1 counterexample: on a well-formed file whose rows contain no valid
sample the pipeline signals no error at all — it returns empty mappings
with NaN means, and `main` still writes a report from them; there is no
no-data error anywhere in the code. -/
theorem no_valid_rows_yields_nan :
    analyze_max_g_values (.found fileNoValid) = .ok ⟨[], .nan, [], .nan⟩ ∧
      mainReport (.found fileNoValid) = some ⟨[], .nan, [], .nan⟩ := by
  constructor <;> decide

/-- C1 (amended): when filtering leaves no valid sample, the pipeline
returns empty mappings and NaN means without signalling any error,
instead of the no-data error the spec asks for. -/
theorem empty_groups_return_nan :
    ∀ f : CSVFile, hasRequiredColumns f = true → filterValid f.rows = [] →
      analyze_max_g_values (.found f) = .ok ⟨[], .nan, [], .nan⟩ := by
  intro f hc hv
  rw [analyze_max_g_values, if_pos hc]
  simp [hv, maxValues, absMaxValues, groupKeys, seriesMean]

/-- C1 witness for the amended claim, at the concrete no-valid-sample
file. -/
theorem empty_groups_return_nan_witness :
    analyze_max_g_values (.found fileNoValid) = .ok ⟨[], .nan, [], .nan⟩ :=
  empty_groups_return_nan fileNoValid (by decide) (by decide)

/-- C2: a row contributes to downstream aggregation iff its tag column
equals the sentinel `-900` and its `ValueG` column parses as a number;
the surviving valid samples are exactly the extracts of those rows, so
rows with any other tag and rows with unparseable `ValueG` are excluded
from all aggregation, whatever the row order. -/
theorem row_contributes_iff :
    (∀ r : RawRow, contributesSpec r = true ↔ r.tag = -900 ∧ r.valueG.isSome = true)
    ∧ ∀ rows : List RawRow,
        filterValid rows = (rows.filter contributesSpec).map extractValid := by
  constructor
  · intro r
    rw [contributesSpec]
    simp
  · intro rows
    induction rows with
    | nil => rfl
    | cons r t ih =>
      rw [filterValid_cons, List.filter_cons]
      by_cases hc : contributesSpec r = true
      · rw [if_pos hc, if_pos hc, List.map_cons, ih, List.singleton_append]
      · rw [if_neg hc, if_neg hc, List.nil_append, ih]

/-- C3: each group-by entry is a true independent maximum — the signed
entry is attained by a group member and bounds all of them, and likewise
the absolute entry over the group's absolute values; on the spec's
example group `[3, -5, 2]` the pipeline returns signedMax `3` and absMax
`5`, which is not `|signedMax|`. -/
theorem extrema_independent :
    (∀ (v : List ValidRow) (k : GroupKey) (m : ℚ), (k, m) ∈ maxValues v →
       m ∈ groupValues v k ∧ ∀ q ∈ groupValues v k, q ≤ m)
    ∧ (∀ (v : List ValidRow) (k : GroupKey) (m : ℚ), (k, m) ∈ absMaxValues v →
       m ∈ groupAbsValues v k ∧ ∀ q ∈ groupAbsValues v k, q ≤ m)
    ∧ analyze_max_g_values (.found fileIndep) =
        .ok ⟨[(("A", 1), 3)], .val 3, [(("A", 1), 5)], .val 5⟩
    ∧ (("A", 1), |(3 : ℚ)|) ∉ absMaxValues (filterValid fileIndep.rows) := by
  refine ⟨?_, ?_, ?_, ?_⟩
  · intro v k m hm
    obtain ⟨hk, rfl⟩ := mem_maxValues_iff.mp hm
    exact ⟨seriesMax_mem (groupValues_ne_nil hk), fun q hq => le_seriesMax hq⟩
  · intro v k m hm
    obtain ⟨hk, rfl⟩ := mem_absMaxValues_iff.mp hm
    exact ⟨seriesMax_mem (groupAbsValues_ne_nil hk), fun q hq => le_seriesMax hq⟩
  · simp [analyze_max_g_values, fileIndep, hasRequiredColumns, filterValid, filterTag,
      filterNumeric, maxValues, absMaxValues, groupKeys, groupRows, groupValues,
      groupAbsValues, seriesMax, seriesMean, rowKey, List.dedup_cons_of_not_mem,
      List.dedup_cons_of_mem]
    norm_num
  · decide

/-- C3 witness: the signed maximum reported for the example group is one
of the group's values. -/
theorem extrema_independent_witness :
    (3 : ℚ) ∈ groupValues (filterValid fileIndep.rows) ("A", 1) :=
  (extrema_independent.1 (filterValid fileIndep.rows) ("A", 1) 3 (by decide)).1

/-- C4: on every successful run the two reported means are the exact
arithmetic means of the per-group signed (resp. absolute) maxima and the
mapping size is the number of groups; on the concrete file whose
per-group signed maxima are `[2, 4, 6]` the mean is exactly `4`. -/
theorem summarize_means :
    (∀ (f : CSVFile) (r : AnalysisResult),
       analyze_max_g_values (.found f) = .ok r → r.maxValuesDict ≠ [] →
       r.meanOfMaxes =
           .val ((r.maxValuesDict.map Prod.snd).sum / (r.maxValuesDict.length : ℚ))
         ∧ r.meanOfAbsMaxes =
           .val ((r.absMaxValuesDict.map Prod.snd).sum / (r.absMaxValuesDict.length : ℚ))
         ∧ r.maxValuesDict.length = (groupKeys (filterValid f.rows)).length)
    ∧ analyze_max_g_values (.found fileMeans) =
        .ok ⟨[(("A", 1), 2), (("A", 2), 4), (("A", 3), 6)], .val 4,
             [(("A", 1), 2), (("A", 2), 4), (("A", 3), 6)], .val 4⟩ := by
  constructor
  · intro f r h hne
    obtain ⟨-, rfl⟩ := analyze_ok_elim h
    dsimp only at hne ⊢
    have hlen : (absMaxValues (filterValid f.rows)).length =
        (maxValues (filterValid f.rows)).length := by
      rw [absMaxValues, maxValues, List.length_map, List.length_map]
    have hne2 : absMaxValues (filterValid f.rows) ≠ [] := by
      intro hh
      apply hne
      apply List.length_eq_zero.mp
      rw [← hlen, hh]
      rfl
    refine ⟨?_, ?_, ?_⟩
    · rw [seriesMean_val (by simpa using hne), List.length_map]
    · rw [seriesMean_val (by simpa using hne2), List.length_map]
    · rw [maxValues, List.length_map]
  · simp [analyze_max_g_values, fileMeans, hasRequiredColumns, filterValid, filterTag,
      filterNumeric, maxValues, absMaxValues, groupKeys, groupRows, groupValues,
      groupAbsValues, seriesMax, seriesMean, rowKey, List.dedup_cons_of_not_mem,
      List.dedup_cons_of_mem]
    norm_num

/-- C4 witness: on the `[2, 4, 6]` file the reported mapping size equals
the number of groups. -/
theorem summarize_means_witness :
    ([(("A", 1), (2 : ℚ)), (("A", 2), 4), (("A", 3), 6)] : List (GroupKey × ℚ)).length =
      (groupKeys (filterValid fileMeans.rows)).length :=
  (summarize_means.1 fileMeans _ summarize_means.2 (by decide)).2.2

/-- C7: the pipeline is order-insensitive — permuting the data rows of a
file yields, on success, the same group-by mappings up to entry order,
the same two means and the same group count. -/
theorem order_insensitive :
    ∀ (f1 f2 : CSVFile) (r1 r2 : AnalysisResult),
      f1.rows.Perm f2.rows →
      analyze_max_g_values (.found f1) = .ok r1 →
      analyze_max_g_values (.found f2) = .ok r2 →
      r1.maxValuesDict.Perm r2.maxValuesDict
        ∧ r1.absMaxValuesDict.Perm r2.absMaxValuesDict
        ∧ r1.meanOfMaxes = r2.meanOfMaxes
        ∧ r1.meanOfAbsMaxes = r2.meanOfAbsMaxes
        ∧ r1.maxValuesDict.length = r2.maxValuesDict.length := by
  intro f1 f2 r1 r2 hp h1 h2
  obtain ⟨-, rfl⟩ := analyze_ok_elim h1
  obtain ⟨-, rfl⟩ := analyze_ok_elim h2
  dsimp only
  have hv := filterValid_perm hp
  exact ⟨maxValues_perm hv, absMaxValues_perm hv,
    seriesMean_perm ((maxValues_perm hv).map Prod.snd),
    seriesMean_perm ((absMaxValues_perm hv).map Prod.snd),
    (maxValues_perm hv).length_eq⟩

/-- C7 witness: the `[2, 4, 6]` file and a row-shuffled copy of it
produce mappings that are permutations of each other. -/
theorem order_insensitive_witness :
    ([(("A", 1), (2 : ℚ)), (("A", 2), 4), (("A", 3), 6)] : List (GroupKey × ℚ)).Perm
      [(("A", 3), 6), (("A", 1), 2), (("A", 2), 4)] :=
  (order_insensitive fileMeans fileMeansShuffled
    ⟨[(("A", 1), 2), (("A", 2), 4), (("A", 3), 6)], .val 4,
     [(("A", 1), 2), (("A", 2), 4), (("A", 3), 6)], .val 4⟩
    ⟨[(("A", 3), 6), (("A", 1), 2), (("A", 2), 4)], .val 4,
     [(("A", 3), 6), (("A", 1), 2), (("A", 2), 4)], .val 4⟩
    (by decide)
    (by simp [analyze_max_g_values, fileMeans, hasRequiredColumns, filterValid, filterTag,
          filterNumeric, maxValues, absMaxValues, groupKeys, groupRows, groupValues,
          groupAbsValues, seriesMax, seriesMean, rowKey, List.dedup_cons_of_not_mem,
          List.dedup_cons_of_mem]
        norm_num)
    (by simp [analyze_max_g_values, fileMeansShuffled, hasRequiredColumns, filterValid,
          filterTag, filterNumeric, maxValues, absMaxValues, groupKeys, groupRows,
          groupValues, groupAbsValues, seriesMax, seriesMean, rowKey,
          List.dedup_cons_of_not_mem, List.dedup_cons_of_mem]
        norm_num)).1

/-- C8: grouping partitions the valid samples — every valid sample lies
in the group of its own `(Trial, TrialNo)` key and in no other, and the
concatenation of all groups is a permutation of the valid samples (no
duplication, no omission). -/
theorem valid_samples_partition :
    ∀ rows : List RawRow,
      (∀ r ∈ filterValid rows,
         rowKey r ∈ groupKeys (filterValid rows) ∧
           ∀ k : GroupKey, r ∈ groupRows (filterValid rows) k ↔ k = rowKey r)
      ∧ ((groupKeys (filterValid rows)).map
          (groupRows (filterValid rows))).flatten.Perm (filterValid rows) := by
  intro rows
  refine ⟨fun r hr => ⟨rowKey_mem_groupKeys hr, fun k => ?_⟩, flatten_groupRows_perm _⟩
  rw [mem_groupRows_iff]
  constructor
  · rintro ⟨-, h⟩
    exact h.symm
  · rintro rfl
    exact ⟨hr, rfl⟩

/-- C8 witness: a concrete valid sample of the `[2, 4, 6]` file lies in
the group of its own key. -/
theorem valid_samples_partition_witness :
    rowKey ⟨"A", 1, 2⟩ ∈ groupKeys (filterValid fileMeans.rows) :=
  ((valid_samples_partition fileMeans.rows).1 ⟨"A", 1, 2⟩ (by decide)).1

/-- C9: on every successful run the signed-maximum mapping and the
absolute-maximum mapping have the same keys in the same order — a key
has a signed entry iff it has an absolute entry — and the two mapping
sizes are equal. -/
theorem key_sets_coincide :
    ∀ (f : CSVFile) (r : AnalysisResult), analyze_max_g_values (.found f) = .ok r →
      r.maxValuesDict.map Prod.fst = r.absMaxValuesDict.map Prod.fst
        ∧ (∀ k : GroupKey,
            (∃ m, (k, m) ∈ r.maxValuesDict) ↔ ∃ m, (k, m) ∈ r.absMaxValuesDict)
        ∧ r.maxValuesDict.length = r.absMaxValuesDict.length := by
  intro f r h
  obtain ⟨-, rfl⟩ := analyze_ok_elim h
  dsimp only
  refine ⟨?_, ?_, ?_⟩
  · simp [maxValues, absMaxValues, List.map_map, Function.comp]
  · intro k
    constructor
    · rintro ⟨m, hm⟩
      exact ⟨_, mem_absMaxValues_iff.mpr ⟨(mem_maxValues_iff.mp hm).1, rfl⟩⟩
    · rintro ⟨m, hm⟩
      exact ⟨_, mem_maxValues_iff.mpr ⟨(mem_absMaxValues_iff.mp hm).1, rfl⟩⟩
  · rw [maxValues, absMaxValues, List.length_map, List.length_map]

/-- C9 witness: on the independent-extrema file both mappings carry the
single key `("A", 1)`. -/
theorem key_sets_coincide_witness :
    ([(("A", 1), (3 : ℚ))] : List (GroupKey × ℚ)).map Prod.fst =
      ([(("A", 1), (5 : ℚ))] : List (GroupKey × ℚ)).map Prod.fst :=
  (key_sets_coincide fileIndep ⟨[(("A", 1), 3)], .val 3, [(("A", 1), 5)], .val 5⟩
    (by simp [analyze_max_g_values, fileIndep, hasRequiredColumns, filterValid, filterTag,
          filterNumeric, maxValues, absMaxValues, groupKeys, groupRows, groupValues,
          groupAbsValues, seriesMax, seriesMean, rowKey, List.dedup_cons_of_not_mem,
          List.dedup_cons_of_mem]
        norm_num)).1

/-- C10: per group the absolute maximum dominates the signed maximum and
is non-negative; consequently, whenever at least one group exists, the
mean of absolute maxima is a finite value that dominates the mean of
signed maxima and is non-negative. -/
theorem abs_max_dominates :
    ∀ (f : CSVFile) (r : AnalysisResult), analyze_max_g_values (.found f) = .ok r →
      (∀ (k : GroupKey) (m am : ℚ),
         (k, m) ∈ r.maxValuesDict → (k, am) ∈ r.absMaxValuesDict → m ≤ am ∧ 0 ≤ am)
        ∧ (r.maxValuesDict ≠ [] →
           ∃ q1 q2 : ℚ, r.meanOfMaxes = .val q1 ∧ r.meanOfAbsMaxes = .val q2 ∧
             q1 ≤ q2 ∧ 0 ≤ q2) := by
  intro f r h
  obtain ⟨-, rfl⟩ := analyze_ok_elim h
  dsimp only
  constructor
  · intro k m am hm ham
    obtain ⟨hk, rfl⟩ := mem_maxValues_iff.mp hm
    obtain ⟨-, rfl⟩ := mem_absMaxValues_iff.mp ham
    exact seriesMax_abs_dominates hk
  · intro hne
    have hlen : (absMaxValues (filterValid f.rows)).length =
        (maxValues (filterValid f.rows)).length := by
      rw [absMaxValues, maxValues, List.length_map, List.length_map]
    have hne2 : absMaxValues (filterValid f.rows) ≠ [] := by
      intro hh
      apply hne
      apply List.length_eq_zero.mp
      rw [← hlen, hh]
      rfl
    have hpos : (0 : ℚ) < ((maxValues (filterValid f.rows)).length : ℚ) := by
      exact_mod_cast List.length_pos.mpr hne
    refine ⟨_, _, seriesMean_val (by simpa using hne),
      seriesMean_val (by simpa using hne2), ?_, ?_⟩
    · rw [List.length_map, List.length_map, hlen]
      exact (div_le_div_iff_of_pos_right hpos).mpr (sum_snd_maxValues_le _)
    · exact div_nonneg (sum_snd_absMaxValues_nonneg _) (by positivity)

/-- C10 witness: on the independent-extrema file the single group's
signed maximum `3` is dominated by its non-negative absolute maximum
`5`. -/
theorem abs_max_dominates_witness : (3 : ℚ) ≤ 5 ∧ (0 : ℚ) ≤ 5 :=
  (abs_max_dominates fileIndep ⟨[(("A", 1), 3)], .val 3, [(("A", 1), 5)], .val 5⟩
    (by simp [analyze_max_g_values, fileIndep, hasRequiredColumns, filterValid, filterTag,
          filterNumeric, maxValues, absMaxValues, groupKeys, groupRows, groupValues,
          groupAbsValues, seriesMax, seriesMean, rowKey, List.dedup_cons_of_not_mem,
          List.dedup_cons_of_mem]
        norm_num)).1 ("A", 1) 3 5 (by decide) (by decide)

end StartleResponse
